import Mathlib

/-!
Shallow embedding of the fare-meter core of the ayeauto repository:
the tariff model and fare engine (`useFareCalculator` in
components/PlaceAutocomplete.tsx), the night-window evaluator, the
settings load/save paths, and the distance accumulator
(`useLocationTracking`). Numeric JavaScript values are modelled as
rationals; where NaN behaviour matters a separate `JSNum` model with an
explicit NaN element is used.
-/

namespace AyeAuto

/-- Embeds the `FareSettings` interface of PlaceAutocomplete.tsx:
`{ baseFare, baseDistance, ratePerKm }`. -/
structure FareSettings where
  baseFare : ℚ
  baseDistance : ℚ
  ratePerKm : ℚ
deriving DecidableEq

/-- `DEFAULT_MIN_CHARGE = 30` (₹30 for the first 1.5 km). -/
def DEFAULT_MIN_CHARGE : ℚ := 30

/-- `DEFAULT_BASE_DISTANCE = 1.5` km. -/
def DEFAULT_BASE_DISTANCE : ℚ := 3 / 2

/-- `DEFAULT_RATE_PER_KM = 15` (₹15 per km beyond the base distance). -/
def DEFAULT_RATE_PER_KM : ℚ := 15

/-- `NIGHT_SURCHARGE = 0.5` (50% extra at night). -/
def NIGHT_SURCHARGE : ℚ := 1 / 2

/-- The default configuration returned by `loadFareSettings` when nothing
valid is stored. -/
def defaultSettings : FareSettings :=
  { baseFare := DEFAULT_MIN_CHARGE
    baseDistance := DEFAULT_BASE_DISTANCE
    ratePerKm := DEFAULT_RATE_PER_KM }

/-- JavaScript `Math.round` on an exact rational: round to the nearest
integer, ties toward positive infinity. -/
def jsRound (q : ℚ) : ℤ := ⌊q + 1 / 2⌋

/-- Modelled from the spec: rounding to the nearest whole unit with ties
away from zero, the rounding mode the specification names.  Used only to
compare the code's rounding against the spec's wording. -/
def roundHalfAwayFromZero (q : ℚ) : ℤ :=
  if 0 ≤ q then ⌊q + 1 / 2⌋ else -⌊-q + 1 / 2⌋

/-- The unrounded fare of `_calculateFareInternal` before `Math.round`:
base fare up to the base distance, marginal rate beyond it, and the
night multiplier `1 + NIGHT_SURCHARGE` applied to the whole subtotal. -/
def fareSubtotal (distanceKm : ℚ) (isNightActive : Bool) (s : FareSettings) : ℚ :=
  let fare : ℚ :=
    if distanceKm ≤ s.baseDistance then s.baseFare
    else s.baseFare + s.ratePerKm * (distanceKm - s.baseDistance)
  if isNightActive then fare * (1 + NIGHT_SURCHARGE) else fare

/-- Embeds `_calculateFareInternal` of PlaceAutocomplete.tsx on numeric
(non-NaN) inputs: compute the subtotal, apply the night surcharge, round
to the nearest rupee with `Math.round`. -/
def calculateFareInternal (distanceKm : ℚ) (isNightActive : Bool) (s : FareSettings) : ℤ :=
  jsRound (fareSubtotal distanceKm isNightActive s)

/-- All three tariff fields strictly positive, as the claims assume. -/
def PositiveFields (s : FareSettings) : Prop :=
  0 < s.baseFare ∧ 0 < s.baseDistance ∧ 0 < s.ratePerKm

instance : DecidablePred PositiveFields := fun s => by
  unfold PositiveFields; infer_instance

/-- Embeds `isNightTime` of PlaceAutocomplete.tsx as a function of the
sampled local hour: `hour >= 22 || hour < 5`. -/
def isNightTime (hour : ℕ) : Bool :=
  decide (hour ≥ 22) || decide (hour < 5)

/-- Embeds `loadFareSettings` of PlaceAutocomplete.tsx.  The argument is
`some s` when AsyncStorage holds a parseable settings record `s`, and
`none` when nothing is stored or reading/parsing threw.  The stored
record is returned as parsed, without validation. -/
def loadFareSettings (savedSettings : Option FareSettings) : FareSettings :=
  match savedSettings with
  | some s => s
  | none => defaultSettings

/-- Embeds `saveSettings` of app/(tabs)/index.tsx acting on the persisted
store: reject (leaving the store unchanged) when any field is ≤ 0 or the
base distance exceeds 10 km, otherwise persist the candidate record. -/
def saveSettings (stored : Option FareSettings) (tempSettings : FareSettings) :
    Option FareSettings :=
  if tempSettings.baseFare ≤ 0 ∨ tempSettings.baseDistance ≤ 0 ∨ tempSettings.ratePerKm ≤ 0 then
    stored
  else if 10 < tempSettings.baseDistance then
    stored
  else
    some tempSettings

/-! ### Distance accumulator (useLocationTracking) -/

/-- A `(latitude, longitude)` position sample. -/
structure Coord where
  latitude : ℚ
  longitude : ℚ
deriving DecidableEq

/-- The mutable state of `useLocationTracking`: `currentLocation`,
`distanceTraveled`, and the `lastLocationRef` reference. -/
structure TrackState where
  currentLocation : Option Coord
  distanceTraveled : ℚ
  lastLocation : Option Coord
deriving DecidableEq

/-- The jitter floor of the native watch callback: `distance > 0.01`. -/
def nativeJitterFloor : ℚ := 1 / 100

/-- The jitter floor of the web watch callback: `distance > 0.001`. -/
def webJitterFloor : ℚ := 1 / 1000

/-- Embeds one invocation of the watch-position callback of
`startTracking`: store the sample as `currentLocation`; if a previous
sample exists, compute the delta with `calculateDistance` and add it to
`distanceTraveled` only when it lies strictly between the jitter floor
and 1 km; finally overwrite `lastLocationRef` with the new sample
unconditionally.  The haversine `calculateDistance` is passed as a
parameter since it is transcendental; the callback logic is independent
of it. -/
def onSample (calculateDistance : Coord → Coord → ℚ) (jitterFloor : ℚ)
    (st : TrackState) (location : Coord) : TrackState :=
  let afterCurrent : TrackState := { st with currentLocation := some location }
  let afterAdd : TrackState :=
    match afterCurrent.lastLocation with
    | some last =>
      let distance := calculateDistance last location
      if jitterFloor < distance ∧ distance < 1 then
        { afterCurrent with distanceTraveled := afterCurrent.distanceTraveled + distance }
      else afterCurrent
    | none => afterCurrent
  { afterAdd with lastLocation := some location }

/-- Embeds the successful branch of `startTracking` before the watcher
fires: the initial fix is stored in both `currentLocation` and
`lastLocationRef`, and `distanceTraveled` is zeroed. -/
def startTracking (initialLocation : Coord) : TrackState :=
  { currentLocation := some initialLocation
    distanceTraveled := 0
    lastLocation := some initialLocation }

/-- Feed a list of samples through the watch callback in order. -/
def processSamples (calculateDistance : Coord → Coord → ℚ) (jitterFloor : ℚ)
    (st : TrackState) (samples : List Coord) : TrackState :=
  samples.foldl (onSample calculateDistance jitterFloor) st

/-- Embeds `resetTracking`: zero the distance and clear both location
references, regardless of the previous state. -/
def resetTracking (_st : TrackState) : TrackState :=
  { currentLocation := none, distanceTraveled := 0, lastLocation := none }

/-- The meter-facing state of `useFareCalculator`: displayed distance,
fare, and night flag. -/
structure MeterState where
  distance : ℚ
  fare : ℤ
  isNight : Bool
deriving DecidableEq

/-- Embeds `resetMeter`: zero distance and fare, clear the night flag. -/
def resetMeter (_st : MeterState) : MeterState :=
  { distance := 0, fare := 0, isNight := false }

/-! ### JavaScript numbers with NaN, for the NaN-distance behaviour -/

/-- A JavaScript number as the fare engine sees it: either an exact
rational or NaN. -/
inductive JSNum where
  | nan : JSNum
  | num : ℚ → JSNum
deriving DecidableEq

/-- JS addition: NaN-propagating. -/
def JSNum.add : JSNum → JSNum → JSNum
  | JSNum.num a, JSNum.num b => JSNum.num (a + b)
  | _, _ => JSNum.nan

/-- JS subtraction: NaN-propagating. -/
def JSNum.sub : JSNum → JSNum → JSNum
  | JSNum.num a, JSNum.num b => JSNum.num (a - b)
  | _, _ => JSNum.nan

/-- JS multiplication: NaN-propagating. -/
def JSNum.mul : JSNum → JSNum → JSNum
  | JSNum.num a, JSNum.num b => JSNum.num (a * b)
  | _, _ => JSNum.nan

/-- JS `<=`: false whenever either operand is NaN. -/
def JSNum.jsle : JSNum → JSNum → Bool
  | JSNum.num a, JSNum.num b => decide (a ≤ b)
  | _, _ => false

/-- JS `Math.round`: NaN maps to NaN, a number rounds to the nearest
integer with ties toward positive infinity. -/
def jsMathRound : JSNum → JSNum
  | JSNum.nan => JSNum.nan
  | JSNum.num q => JSNum.num ((⌊q + 1 / 2⌋ : ℤ) : ℚ)

/-- Embeds `_calculateFareInternal` on a possibly-NaN distance, following
the source line by line with JS operator semantics. -/
def calculateFareInternalJS (distanceKm : JSNum) (isNightActive : Bool)
    (s : FareSettings) : JSNum :=
  let fare : JSNum :=
    if distanceKm.jsle (JSNum.num s.baseDistance) then JSNum.num s.baseFare
    else (JSNum.num s.baseFare).add
      ((JSNum.num s.ratePerKm).mul (distanceKm.sub (JSNum.num s.baseDistance)))
  let fare : JSNum :=
    if isNightActive then fare.mul (JSNum.num (1 + NIGHT_SURCHARGE)) else fare
  jsMathRound fare

/-! ### Helper lemmas -/

/-- On nonnegative arguments the spec's tie-away-from-zero rounding and
the code's `Math.round` agree. -/
theorem roundHalfAwayFromZero_of_nonneg (q : ℚ) (h : 0 ≤ q) :
    roundHalfAwayFromZero q = jsRound q := by
  unfold roundHalfAwayFromZero jsRound
  rw [if_pos h]

/-- `Math.round` is monotone. -/
theorem jsRound_mono {a b : ℚ} (h : a ≤ b) : jsRound a ≤ jsRound b := by
  unfold jsRound
  exact Int.floor_le_floor (by linarith)

/-- The unrounded day subtotal is positive for a tariff with positive
fields. -/
theorem fareSubtotal_false_pos (d : ℚ) (s : FareSettings) (hs : PositiveFields s) :
    0 < fareSubtotal d false s := by
  obtain ⟨hbf, hbd, hr⟩ := hs
  unfold fareSubtotal
  by_cases h : d ≤ s.baseDistance
  · simp only [if_pos h, Bool.false_eq_true, if_false]
    exact hbf
  · simp only [if_neg h, Bool.false_eq_true, if_false]
    push_neg at h
    have : 0 ≤ s.ratePerKm * (d - s.baseDistance) :=
      mul_nonneg hr.le (by linarith)
    linarith

/-- The unrounded subtotal is monotone in the distance. -/
theorem fareSubtotal_mono (s : FareSettings) (hs : PositiveFields s) (n : Bool)
    (d1 d2 : ℚ) (h : d1 ≤ d2) :
    fareSubtotal d1 n s ≤ fareSubtotal d2 n s := by
  obtain ⟨hbf, hbd, hr⟩ := hs
  unfold fareSubtotal
  have key : (if d1 ≤ s.baseDistance then s.baseFare
        else s.baseFare + s.ratePerKm * (d1 - s.baseDistance)) ≤
      (if d2 ≤ s.baseDistance then s.baseFare
        else s.baseFare + s.ratePerKm * (d2 - s.baseDistance)) := by
    by_cases h1 : d1 ≤ s.baseDistance <;> by_cases h2 : d2 ≤ s.baseDistance
    · rw [if_pos h1, if_pos h2]
    · rw [if_pos h1, if_neg h2]
      push_neg at h2
      have : 0 ≤ s.ratePerKm * (d2 - s.baseDistance) :=
        mul_nonneg hr.le (by linarith)
      linarith
    · exact absurd (h.trans h2) h1
    · rw [if_neg h1, if_neg h2]
      have : s.ratePerKm * (d1 - s.baseDistance) ≤ s.ratePerKm * (d2 - s.baseDistance) :=
        mul_le_mul_of_nonneg_left (by linarith) hr.le
      linarith
  cases n
  · simpa using key
  · simp only [if_true]
    have hmul : (0:ℚ) ≤ 1 + NIGHT_SURCHARGE := by norm_num [NIGHT_SURCHARGE]
    exact mul_le_mul_of_nonneg_right key hmul

/-! ### Claim theorems -/

/-- C1: for every distance `d ≥ 0` and tariff with positive fields, the
day fare equals the subtotal `baseFare + ratePerKm * max 0 (d −
baseDistance)` rounded once to the nearest whole unit with ties away
from zero. -/
theorem fare_day_matches_spec_round (d : ℚ) (s : FareSettings)
    (hd : 0 ≤ d) (hs : PositiveFields s) :
    calculateFareInternal d false s =
      roundHalfAwayFromZero (s.baseFare + s.ratePerKm * max 0 (d - s.baseDistance)) := by
  obtain ⟨hbf, hbd, hr⟩ := hs
  unfold calculateFareInternal fareSubtotal
  by_cases h : d ≤ s.baseDistance
  · have hmax : max 0 (d - s.baseDistance) = 0 :=
      max_eq_left (by linarith)
    rw [hmax, mul_zero, add_zero, roundHalfAwayFromZero_of_nonneg _ hbf.le]
    simp only [if_pos h, Bool.false_eq_true, if_false]
  · push_neg at h
    have hmax : max 0 (d - s.baseDistance) = d - s.baseDistance :=
      max_eq_right (by linarith)
    have hpos : (0:ℚ) ≤ s.baseFare + s.ratePerKm * (d - s.baseDistance) := by
      have : 0 ≤ s.ratePerKm * (d - s.baseDistance) := mul_nonneg hr.le (by linarith)
      linarith
    rw [hmax, roundHalfAwayFromZero_of_nonneg _ hpos]
    simp only [if_neg (not_le.mpr h), Bool.false_eq_true, if_false]

/-- Witness for C1 at the spec's scenario: default tariff, 2 km, day,
where the fare is 38. -/
theorem fare_day_matches_spec_round_witness :
    ((0:ℚ) ≤ 2 ∧ PositiveFields defaultSettings ∧
      calculateFareInternal 2 false defaultSettings =
        roundHalfAwayFromZero (defaultSettings.baseFare +
          defaultSettings.ratePerKm * max 0 (2 - defaultSettings.baseDistance))) ∧
    calculateFareInternal 2 false defaultSettings = 38 := by
  have hpos : PositiveFields defaultSettings := by
    refine ⟨?_, ?_, ?_⟩ <;>
      norm_num [defaultSettings, DEFAULT_MIN_CHARGE, DEFAULT_BASE_DISTANCE, DEFAULT_RATE_PER_KM]
  refine ⟨⟨by norm_num, hpos, fare_day_matches_spec_round 2 defaultSettings (by norm_num) hpos⟩, ?_⟩
  have harith : fareSubtotal 2 false defaultSettings = 75 / 2 := by
    norm_num [fareSubtotal, defaultSettings, DEFAULT_MIN_CHARGE, DEFAULT_BASE_DISTANCE,
      DEFAULT_RATE_PER_KM]
  rw [calculateFareInternal, harith]
  norm_num [jsRound]

/-- C4: the night fare is the day subtotal multiplied by 1.5 and then
rounded once, for all `d ≥ 0` and positive-field tariffs. -/
theorem fare_night_surcharge_before_rounding (d : ℚ) (s : FareSettings)
    (hd : 0 ≤ d) (hs : PositiveFields s) :
    calculateFareInternal d true s =
      roundHalfAwayFromZero (3 / 2 * fareSubtotal d false s) := by
  have hpos : 0 < fareSubtotal d false s := fareSubtotal_false_pos d s hs
  have harg : (0:ℚ) ≤ 3 / 2 * fareSubtotal d false s := by positivity
  rw [roundHalfAwayFromZero_of_nonneg _ harg]
  unfold calculateFareInternal
  congr 1
  unfold fareSubtotal NIGHT_SURCHARGE
  simp only [if_true, Bool.false_eq_true, if_false]
  ring

/-- Witness for C4 at the spec's scenario: default tariff, 0 km, night,
where the fare is 45. -/
theorem fare_night_surcharge_before_rounding_witness :
    ((0:ℚ) ≤ 0 ∧ PositiveFields defaultSettings ∧
      calculateFareInternal 0 true defaultSettings =
        roundHalfAwayFromZero (3 / 2 * fareSubtotal 0 false defaultSettings)) ∧
    calculateFareInternal 0 true defaultSettings = 45 := by
  have hpos : PositiveFields defaultSettings := by
    refine ⟨?_, ?_, ?_⟩ <;>
      norm_num [defaultSettings, DEFAULT_MIN_CHARGE, DEFAULT_BASE_DISTANCE, DEFAULT_RATE_PER_KM]
  refine ⟨⟨le_refl 0, hpos, fare_night_surcharge_before_rounding 0 defaultSettings (le_refl 0) hpos⟩, ?_⟩
  have harith : fareSubtotal 0 true defaultSettings = 45 := by
    norm_num [fareSubtotal, defaultSettings, NIGHT_SURCHARGE, DEFAULT_MIN_CHARGE,
      DEFAULT_BASE_DISTANCE, DEFAULT_RATE_PER_KM]
  rw [calculateFareInternal, harith]
  norm_num [jsRound]

/-- C6: the fare is monotone in the distance for a fixed night flag and
positive-field tariff. -/
theorem fare_monotone_in_distance (s : FareSettings) (hs : PositiveFields s)
    (n : Bool) (d1 d2 : ℚ) (hd1 : 0 ≤ d1) (h12 : d1 < d2) :
    calculateFareInternal d1 n s ≤ calculateFareInternal d2 n s := by
  unfold calculateFareInternal
  exact jsRound_mono (fareSubtotal_mono s hs n d1 d2 h12.le)

/-- Witness for C6: default tariff, day, distances 0 and 2. -/
theorem fare_monotone_in_distance_witness :
    PositiveFields defaultSettings ∧ (0:ℚ) ≤ 0 ∧ (0:ℚ) < 2 ∧
    calculateFareInternal 0 false defaultSettings ≤
      calculateFareInternal 2 false defaultSettings := by
  have hpos : PositiveFields defaultSettings := by
    refine ⟨?_, ?_, ?_⟩ <;>
      norm_num [defaultSettings, DEFAULT_MIN_CHARGE, DEFAULT_BASE_DISTANCE, DEFAULT_RATE_PER_KM]
  exact ⟨hpos, le_refl 0, by norm_num,
    fare_monotone_in_distance defaultSettings hpos false 0 2 (le_refl 0) (by norm_num)⟩

/-- C8: for every hour of the day, `isNightTime` is true exactly on
{22, 23, 0, 1, 2, 3, 4}. -/
theorem night_window_hours :
    ∀ hour : ℕ, hour < 24 →
      (isNightTime hour = true ↔ hour ∈ ({22, 23, 0, 1, 2, 3, 4} : Finset ℕ)) := by
  decide

/-- Witness for C8 at the boundary hours 5 and 21, both daytime. -/
theorem night_window_hours_witness :
    ((5 < 24) ∧ (isNightTime 5 = true ↔ 5 ∈ ({22, 23, 0, 1, 2, 3, 4} : Finset ℕ))) ∧
    ((21 < 24) ∧ (isNightTime 21 = true ↔ 21 ∈ ({22, 23, 0, 1, 2, 3, 4} : Finset ℕ))) ∧
    isNightTime 5 = false ∧ isNightTime 21 = false :=
  ⟨⟨by decide, night_window_hours 5 (by decide)⟩,
   ⟨by decide, night_window_hours 21 (by decide)⟩,
   by decide, by decide⟩

/-- C2 counterexample: a persisted configuration with `baseFare = 0` is
returned as stored, not replaced by the default, and the fare computed
from it differs from the fare under the default tariff. -/
theorem load_does_not_validate_counterexample :
    loadFareSettings (some { baseFare := 0, baseDistance := 3 / 2, ratePerKm := 15 }) ≠
      defaultSettings ∧
    loadFareSettings (some { baseFare := 0, baseDistance := 3 / 2, ratePerKm := 15 }) =
      { baseFare := 0, baseDistance := 3 / 2, ratePerKm := 15 } ∧
    calculateFareInternal 2 false
        (loadFareSettings (some { baseFare := 0, baseDistance := 3 / 2, ratePerKm := 15 })) = 8 ∧
    calculateFareInternal 2 false defaultSettings = 38 := by
  refine ⟨?_, rfl, ?_, ?_⟩
  · intro hcontra
    have := congrArg FareSettings.baseFare hcontra
    norm_num [loadFareSettings, defaultSettings, DEFAULT_MIN_CHARGE] at this
  · have harith : fareSubtotal 2 false
        (loadFareSettings (some { baseFare := 0, baseDistance := 3 / 2, ratePerKm := 15 })) =
        15 / 2 := by
      norm_num [fareSubtotal, loadFareSettings]
    rw [calculateFareInternal, harith]
    norm_num [jsRound]
  · have harith : fareSubtotal 2 false defaultSettings = 75 / 2 := by
      norm_num [fareSubtotal, defaultSettings, DEFAULT_MIN_CHARGE, DEFAULT_BASE_DISTANCE,
        DEFAULT_RATE_PER_KM]
    rw [calculateFareInternal, harith]
    norm_num [jsRound]

/-- C2 amended: loading substitutes the default configuration only when
nothing is stored (or reading failed); a stored record is returned
exactly as persisted, without validation. -/
theorem load_returns_stored_unvalidated :
    loadFareSettings none = defaultSettings ∧
    ∀ s : FareSettings, loadFareSettings (some s) = s :=
  ⟨rfl, fun _ => rfl⟩

/-- C10: the save path persists the candidate settings exactly when all
three fields are strictly positive and the base distance is at most
10 km, and otherwise leaves the store unchanged. -/
theorem save_validates_and_rejects_atomically (stored : Option FareSettings)
    (t : FareSettings) :
    saveSettings stored t =
      if 0 < t.baseFare ∧ 0 < t.baseDistance ∧ 0 < t.ratePerKm ∧ t.baseDistance ≤ 10
      then some t else stored := by
  unfold saveSettings
  split_ifs with h1 h2 h3 h4 h5 <;> try rfl
  · exfalso
    rcases h1 with h | h | h <;> rcases h2 with ⟨a, b, c, e⟩ <;> linarith
  · exfalso
    exact absurd h4.2.2.2 (not_le.mpr h3)
  · exfalso
    push_neg at h1
    exact h5 ⟨h1.1, h1.2.1, h1.2.2, not_lt.mp h3⟩

/-- C9: both reset operations are idempotent, and a single reset zeroes
the distance, the fare, and the last-sample reference. -/
theorem reset_idempotent :
    ∀ (ts : TrackState) (ms : MeterState),
      resetTracking (resetTracking ts) = resetTracking ts ∧
      resetMeter (resetMeter ms) = resetMeter ms ∧
      (resetTracking ts).distanceTraveled = 0 ∧
      (resetTracking ts).lastLocation = none ∧
      (resetMeter ms).distance = 0 ∧
      (resetMeter ms).fare = 0 :=
  fun _ _ => ⟨rfl, rfl, rfl, rfl, rfl, rfl⟩

/-- C3 counterexample: a NaN distance is not clamped to 0 — the
comparison with the base distance is false for NaN, so the engine takes
the excess-distance branch and NaN propagates through to the rounded
result, unlike the numeric fare produced at distance 0. -/
theorem nan_distance_propagates_counterexample :
    calculateFareInternalJS JSNum.nan false defaultSettings = JSNum.nan ∧
    calculateFareInternalJS (JSNum.num 0) false defaultSettings = JSNum.num 30 ∧
    calculateFareInternalJS JSNum.nan false defaultSettings ≠
      calculateFareInternalJS (JSNum.num 0) false defaultSettings := by
  have hnan : calculateFareInternalJS JSNum.nan false defaultSettings = JSNum.nan := rfl
  have hle : JSNum.jsle (JSNum.num 0) (JSNum.num defaultSettings.baseDistance) = true := by
    unfold JSNum.jsle
    norm_num [defaultSettings, DEFAULT_BASE_DISTANCE]
  have hzero : calculateFareInternalJS (JSNum.num 0) false defaultSettings = JSNum.num 30 := by
    unfold calculateFareInternalJS
    rw [hle]
    simp only [if_true, Bool.false_eq_true, if_false, jsMathRound]
    norm_num [defaultSettings, DEFAULT_MIN_CHARGE]
  refine ⟨hnan, hzero, ?_⟩
  rw [hnan, hzero]
  intro hcontra
  exact JSNum.noConfusion hcontra

/-- C3 amended: the engine never raises, and a negative distance yields
exactly the fare at distance 0 under the same night flag and tariff
(both fall into the base-fare branch); a NaN distance, however, is not
clamped and propagates NaN. -/
theorem negative_distance_clamps (d : ℚ) (hneg : d < 0) (s : FareSettings)
    (hb : 0 ≤ s.baseDistance) (n : Bool) :
    calculateFareInternalJS (JSNum.num d) n s =
      calculateFareInternalJS (JSNum.num 0) n s := by
  unfold calculateFareInternalJS
  have h1 : JSNum.jsle (JSNum.num d) (JSNum.num s.baseDistance) = true := by
    unfold JSNum.jsle
    simp only [decide_eq_true_eq]
    linarith
  have h2 : JSNum.jsle (JSNum.num 0) (JSNum.num s.baseDistance) = true := by
    unfold JSNum.jsle
    simp only [decide_eq_true_eq]
    exact hb
  rw [h1, h2]
  simp

/-- Witness for the amended C3 at distance −5 km, default tariff, day. -/
theorem negative_distance_clamps_witness :
    (-5 : ℚ) < 0 ∧ (0:ℚ) ≤ defaultSettings.baseDistance ∧
    calculateFareInternalJS (JSNum.num (-5)) false defaultSettings =
      calculateFareInternalJS (JSNum.num 0) false defaultSettings := by
  have hb : (0:ℚ) ≤ defaultSettings.baseDistance := by
    norm_num [defaultSettings, DEFAULT_BASE_DISTANCE]
  exact ⟨by norm_num, hb,
    negative_distance_clamps (-5) (by norm_num) defaultSettings hb false⟩

/-- C5: the watch callback adds the computed delta exactly when it lies
strictly between the jitter floor and the 1 km ceiling, and it updates
the last-sample reference with the new sample whether or not the delta
was accepted. -/
theorem sample_filter_and_last_position (calculateDistance : Coord → Coord → ℚ)
    (jitterFloor : ℚ) (st : TrackState) (location last : Coord)
    (h : st.lastLocation = some last) :
    (onSample calculateDistance jitterFloor st location).lastLocation = some location ∧
    (onSample calculateDistance jitterFloor st location).distanceTraveled =
      (if jitterFloor < calculateDistance last location ∧
          calculateDistance last location < 1
       then st.distanceTraveled + calculateDistance last location
       else st.distanceTraveled) := by
  constructor
  · rfl
  · unfold onSample
    simp only [h]
    split_ifs <;> rfl

/-- Witness for C5: from a fresh session at the origin, a 5000 km
teleport delta and a 2 m jitter delta (native floor) each add 0 while
the last-sample reference moves to the new sample, and a 0 delta adds 0
under the web floor as well. -/
theorem sample_filter_and_last_position_witness :
    (startTracking ⟨0, 0⟩).lastLocation = some ⟨0, 0⟩ ∧
    (onSample (fun _ _ => 5000) nativeJitterFloor (startTracking ⟨0, 0⟩)
        ⟨1, 1⟩).lastLocation = some ⟨1, 1⟩ ∧
    (onSample (fun _ _ => 5000) nativeJitterFloor (startTracking ⟨0, 0⟩)
        ⟨1, 1⟩).distanceTraveled = 0 ∧
    (onSample (fun _ _ => 1 / 500) nativeJitterFloor (startTracking ⟨0, 0⟩)
        ⟨1, 1⟩).distanceTraveled = 0 ∧
    (onSample (fun _ _ => 0) webJitterFloor (startTracking ⟨0, 0⟩)
        ⟨1, 1⟩).distanceTraveled = 0 := by
  have hteleport := sample_filter_and_last_position (fun _ _ => 5000)
    nativeJitterFloor (startTracking ⟨0, 0⟩) ⟨1, 1⟩ ⟨0, 0⟩ rfl
  have hjitter := sample_filter_and_last_position (fun _ _ => 1 / 500)
    nativeJitterFloor (startTracking ⟨0, 0⟩) ⟨1, 1⟩ ⟨0, 0⟩ rfl
  have hzero := sample_filter_and_last_position (fun _ _ => 0)
    webJitterFloor (startTracking ⟨0, 0⟩) ⟨1, 1⟩ ⟨0, 0⟩ rfl
  refine ⟨rfl, hteleport.1, ?_, ?_, ?_⟩
  · rw [hteleport.2]
    norm_num [startTracking]
  · rw [hjitter.2]
    norm_num [startTracking, nativeJitterFloor]
  · rw [hzero.2]
    norm_num [startTracking, webJitterFloor]

/-- One callback invocation never decreases the accumulated distance
when the jitter floor is nonnegative. -/
theorem onSample_distance_le (calculateDistance : Coord → Coord → ℚ)
    (jitterFloor : ℚ) (hf : 0 ≤ jitterFloor) (st : TrackState) (location : Coord) :
    st.distanceTraveled ≤ (onSample calculateDistance jitterFloor st location).distanceTraveled := by
  unfold onSample
  cases hlast : st.lastLocation with
  | none => simp [hlast]
  | some last =>
    simp only [hlast]
    split_ifs with hcond
    · have : 0 < calculateDistance last location := lt_of_le_of_lt hf hcond.1
      simp only []
      linarith
    · exact le_refl _

/-- Processing any list of samples never decreases the accumulated
distance when the jitter floor is nonnegative. -/
theorem processSamples_distance_le (calculateDistance : Coord → Coord → ℚ)
    (jitterFloor : ℚ) (hf : 0 ≤ jitterFloor) (st : TrackState) (samples : List Coord) :
    st.distanceTraveled ≤
      (processSamples calculateDistance jitterFloor st samples).distanceTraveled := by
  induction samples generalizing st with
  | nil => exact le_refl _
  | cons loc rest ih =>
    exact le_trans (onSample_distance_le calculateDistance jitterFloor hf st loc)
      (ih (onSample calculateDistance jitterFloor st loc))

/-- C7: the accumulated distance starts at 0 on `startTracking`, stays
nonnegative along any sample sequence, never decreases when further
samples arrive, and an accepted sample adds a strictly positive delta. -/
theorem cumulative_distance_monotone (calculateDistance : Coord → Coord → ℚ)
    (jitterFloor : ℚ) (hf : 0 ≤ jitterFloor) (initialLocation : Coord)
    (samples more : List Coord) :
    (startTracking initialLocation).distanceTraveled = 0 ∧
    0 ≤ (processSamples calculateDistance jitterFloor
        (startTracking initialLocation) samples).distanceTraveled ∧
    (processSamples calculateDistance jitterFloor
        (startTracking initialLocation) samples).distanceTraveled ≤
      (processSamples calculateDistance jitterFloor
        (startTracking initialLocation) (samples ++ more)).distanceTraveled ∧
    (∀ (st : TrackState) (location last : Coord), st.lastLocation = some last →
      jitterFloor < calculateDistance last location →
      calculateDistance last location < 1 →
      st.distanceTraveled <
        (onSample calculateDistance jitterFloor st location).distanceTraveled) := by
  refine ⟨rfl, ?_, ?_, ?_⟩
  · have := processSamples_distance_le calculateDistance jitterFloor hf
      (startTracking initialLocation) samples
    simpa [startTracking] using this
  · simp only [processSamples, List.foldl_append]
    exact processSamples_distance_le calculateDistance jitterFloor hf _ more
  · intro st location last hlast hlow hhigh
    unfold onSample
    simp only [hlast]
    rw [if_pos ⟨hlow, hhigh⟩]
    have : 0 < calculateDistance last location := lt_of_le_of_lt hf hlow
    simp only []
    linarith

/-- Witness for C7 with the native jitter floor, a constant half-km
delta, one processed sample and one further sample. -/
theorem cumulative_distance_monotone_witness :
    (0:ℚ) ≤ nativeJitterFloor ∧
    ((startTracking ⟨0, 0⟩).distanceTraveled = 0 ∧
      0 ≤ (processSamples (fun _ _ => 1 / 2) nativeJitterFloor
          (startTracking ⟨0, 0⟩) [⟨1, 1⟩]).distanceTraveled ∧
      (processSamples (fun _ _ => 1 / 2) nativeJitterFloor
          (startTracking ⟨0, 0⟩) [⟨1, 1⟩]).distanceTraveled ≤
        (processSamples (fun _ _ => 1 / 2) nativeJitterFloor
          (startTracking ⟨0, 0⟩) ([⟨1, 1⟩] ++ [⟨2, 2⟩])).distanceTraveled ∧
      (∀ (st : TrackState) (location last : Coord), st.lastLocation = some last →
        nativeJitterFloor < (fun _ _ : Coord => (1:ℚ) / 2) last location →
        (fun _ _ : Coord => (1:ℚ) / 2) last location < 1 →
        st.distanceTraveled <
          (onSample (fun _ _ => 1 / 2) nativeJitterFloor st location).distanceTraveled)) := by
  have hf : (0:ℚ) ≤ nativeJitterFloor := by norm_num [nativeJitterFloor]
  exact ⟨hf, cumulative_distance_monotone (fun _ _ => 1 / 2) nativeJitterFloor hf
    ⟨0, 0⟩ [⟨1, 1⟩] [⟨2, 2⟩]⟩

end AyeAuto
